import Mathlib

/-!
Shallow embedding of the autocorrelation measurement controller of the
qudi plugin set, translated from
`src/logic/autocorrelation_logic.py` (class `AutocorrelationLogic`) and
`src/hardware/autocorrelation_timetagger_swabian.py`
(class `AutocorrelationDummy`).

The controller is sequential Python driven by a Qt event loop; we model one
logical thread of control executing one public operation at a time.  Mutable
attributes of the logic object and of the connected dummy device become the
fields of `AutocorrelationState`.  Signal emissions, device calls, the log
warning and the blocking sleep become an `Event` trace; every event is paired
with a `Bool` recording whether `self.threadlock` was held when the effect was
performed (the lock is acquired and released only by the `with self.threadlock`
blocks in the source).  A framework exception that escapes an operation (the
qudi module state machine rejecting an invalid `lock()` transition) is recorded
by the `ok := false` field of `StepResult`; the side effects performed before
the exception persist, as they do in Python.
-/

namespace Autocorrelation

/-- Modelled from the spec: the qudi framework module state machine
(`core.module`, not under `src/`).  The spec's RunState is `Idle` or
`Running`; the source reads it as `self.module_state() == 'locked'`.
`lock()` is valid only from `idle` and `unlock()` only from `locked`;
an invalid transition is rejected by the state guard, which we model as
an exception escaping the calling operation. -/
inductive ModuleState where
  | idle
  | locked
deriving DecidableEq, Repr

/-- Observable effects of the controller: calls into the Device Capability,
Qt signal emissions towards the Result Sink, the log warning, and the
blocking sleep inside the poll loop body. -/
inductive Event where
  | devConfigure (bin_width count_length : Int)
  | devStartMeasure
  | devStopMeasure
  | devContinueMeasure
  | devGetDataTrace
  | sigStatusChanged (running : Bool)
  | sigDataUpdated
  | sigDataNext
  | sigCountLengthChanged (n : Int)
  | sigBinWidthChanged (w : Int)
  | sigRefreshTimeChanged (t : Int)
  | logWarning
  | sleepMs (t : Int)
deriving DecidableEq, Repr

/-- An event paired with whether `self.threadlock` was held when it happened. -/
abbrev TEvent := Event × Bool

/-- State of the `AutocorrelationDummy` hardware module: its `_bin_width`
and `_count_length` attributes. -/
structure DummyDevice where
  bin_width : Int
  count_length : Int
deriving DecidableEq, Repr

/-- `AutocorrelationConstraints` as filled in by
`AutocorrelationDummy.get_constraints`. -/
structure AutocorrelationConstraints where
  max_channels : Int
  min_channels : Int
  min_count_length : Int
  min_bin_width : Int
deriving DecidableEq, Repr

/-- `AutocorrelationDummy.get_constraints`: hard-coded constraint values. -/
def dummy_get_constraints : AutocorrelationConstraints :=
  { max_channels := 2, min_channels := 2, min_count_length := 1, min_bin_width := 100 }

/-- `AutocorrelationDummy.configure(bin_width, count_length)`: stores both
parameters on the device (and returns `None`, which the logic discards). -/
def dummy_configure (d : DummyDevice) (bw cl : Int) : DummyDevice :=
  { d with bin_width := bw, count_length := cl }

/-- `AutocorrelationDummy.get_count_length`: reports `2 * _count_length + 1`. -/
def dummy_get_count_length (d : DummyDevice) : Int :=
  2 * d.count_length + 1

/-- `AutocorrelationDummy.get_data_trace`: returns
`np.random.randint(0, 100, self._count_length, dtype='int32')`, an array of
`_count_length` random values in `[0, 100)`.  The randomness source is an
explicit parameter `rand`. -/
def dummy_get_data_trace (d : DummyDevice) (rand : Nat → Int) : List Int :=
  (List.range d.count_length.toNat).map (fun i => rand i % 100)

/-- Mutable state of the `AutocorrelationLogic` module together with its
connected dummy device: `module_state`, `stopRequested`, `_count_length`,
`_bin_width`, `_refresh_time`, `rawdata`. -/
structure AutocorrelationState where
  moduleState : ModuleState
  stopRequested : Bool
  count_length : Int
  bin_width : Int
  refresh_time : Int
  rawdata : List Int
  device : DummyDevice
deriving DecidableEq, Repr

/-- Result of running one public operation: the state after it, the trace of
observable effects, and whether the operation returned normally (`ok = true`)
or a framework exception escaped (`ok = false`; effects so far persist). -/
structure StepResult where
  state : AutocorrelationState
  events : List TEvent
  ok : Bool
deriving DecidableEq, Repr

/-- `AutocorrelationLogic.__init__` defaults followed by `on_activate` with no
saved status variables: `_count_length = 50`, `_bin_width = 500`,
`_refresh_time = 1000`, `rawdata` zero-filled to the device-reported count
length, `stopRequested = False`; the module starts `idle`.  The dummy device
is in its own `on_activate` state (`_count_length = 10`, `_bin_width = 1`). -/
def initialState : AutocorrelationState :=
  let dev : DummyDevice := { bin_width := 1, count_length := 10 }
  { moduleState := .idle
    stopRequested := false
    count_length := 50
    bin_width := 500
    refresh_time := 1000
    rawdata := List.replicate (dummy_get_count_length dev).toNat 0
    device := dev }

/-- `AutocorrelationLogic._configure_correlation`: calls
`self._correlation_device.configure(self._bin_width, self._count_length)`,
DISCARDS the device's return value (`devStatus`, which is `-1` when the real
TimeTagger driver rejects the configuration), and returns `0` unconditionally. -/
def configure_correlation_status (_devStatus : Int) : Int := 0

/-- `AutocorrelationLogic.start_correlation`.  `devStatus` is the value the
connected device's `configure` call returns (discarded by
`_configure_correlation`).  The device is configured and `start_measure` is
called before any state check; then, under the threadlock,
`module_state.lock()` is attempted — it is rejected when the module is already
locked, and the exception escapes the operation. -/
def start_correlation (devStatus : Int) (s : AutocorrelationState) : StepResult :=
  let s1 := { s with device := dummy_configure s.device s.bin_width s.count_length }
  let correlation_status := configure_correlation_status devStatus
  let ev0 : List TEvent :=
    [(.devConfigure s.bin_width s.count_length, false), (.devStartMeasure, false)]
  match s1.moduleState with
  | .locked => { state := s1, events := ev0, ok := false }
  | .idle =>
    let s2 := { s1 with moduleState := .locked }
    if correlation_status < 0 then
      { state := { s2 with moduleState := .idle }
        events := ev0 ++ [(.sigStatusChanged false, true)]
        ok := true }
    else
      { state := { s2 with rawdata := List.replicate s2.count_length.toNat 0 }
        events := ev0 ++ [(.sigStatusChanged true, true), (.sigDataNext, true)]
        ok := true }

/-- `AutocorrelationLogic.stop_correlation`: if the module is locked, set the
`stopRequested` flag under the threadlock; otherwise do nothing.  No device
call, no signal, no state transition. -/
def stop_correlation (s : AutocorrelationState) : StepResult :=
  if s.moduleState = .locked then
    { state := { s with stopRequested := true }, events := [], ok := true }
  else
    { state := s, events := [], ok := true }

/-- `AutocorrelationLogic.continue_correlation`: if the module is NOT locked,
call `continue_measure` on the device (outside the threadlock), then lock the
module and emit `sigCorrelationDataNext`; if locked, do nothing. -/
def continue_correlation (s : AutocorrelationState) : StepResult :=
  if s.moduleState = .locked then
    { state := s, events := [], ok := true }
  else
    { state := { s with moduleState := .locked }
      events := [(.devContinueMeasure, false), (.sigDataNext, true)]
      ok := true }

/-- `AutocorrelationLogic.correlation_loop_body`: if the module is locked, then
under the threadlock either (stop requested) call `stop_measure`, clear the
flag, unlock, emit one `sigCorrelationUpdated` and return without scheduling,
or (normal turn) sleep for `_refresh_time` ms, fetch `get_data_trace` into
`rawdata`, emit `sigCorrelationUpdated` and `sigCorrelationDataNext`.  The
sleep and the device fetch happen INSIDE the `with self.threadlock` block. -/
def correlation_loop_body (rand : Nat → Int) (s : AutocorrelationState) : StepResult :=
  match s.moduleState with
  | .idle => { state := s, events := [], ok := true }
  | .locked =>
    if s.stopRequested then
      { state := { s with stopRequested := false, moduleState := .idle }
        events := [(.devStopMeasure, true), (.sigDataUpdated, true)]
        ok := true }
    else
      { state := { s with rawdata := dummy_get_data_trace s.device rand }
        events := [(.sleepMs s.refresh_time, true), (.devGetDataTrace, true),
                   (.sigDataUpdated, true), (.sigDataNext, true)]
        ok := true }

/-- `AutocorrelationLogic.set_count_length(count_length)`: remember whether the
module was locked; if the argument is positive, call `stop_correlation` (which
only sets a flag), store the new length, and if it was locked call
`start_correlation` again; otherwise log a warning.  In every non-exceptional
path `sigCountLengthChanged` is emitted at the end with the current value; if
`start_correlation` raises, the emission is skipped and the exception escapes. -/
def set_count_length (devStatus : Int) (n : Int) (s : AutocorrelationState) : StepResult :=
  let restart := s.moduleState = .locked
  if n > 0 then
    let r1 := stop_correlation s
    let s2 := { r1.state with count_length := n }
    if restart then
      let r3 := start_correlation devStatus s2
      if r3.ok then
        { state := r3.state
          events := r1.events ++ r3.events ++ [(.sigCountLengthChanged r3.state.count_length, false)]
          ok := true }
      else
        { state := r3.state, events := r1.events ++ r3.events, ok := false }
    else
      { state := s2
        events := r1.events ++ [(.sigCountLengthChanged s2.count_length, false)]
        ok := true }
  else
    { state := s
      events := [(.logWarning, false), (.sigCountLengthChanged s.count_length, false)]
      ok := true }

/-- `AutocorrelationLogic.set_bin_width(bin_width)`: same shape as
`set_count_length`, guarded by `constraints.min_bin_width <= bin_width` with
the constraints fetched from the device (`min_bin_width = 100` for the dummy);
emits `sigCountingBinWidthChanged` at the end of every non-exceptional path. -/
def set_bin_width (devStatus : Int) (w : Int) (s : AutocorrelationState) : StepResult :=
  let restart := s.moduleState = .locked
  if dummy_get_constraints.min_bin_width ≤ w then
    let r1 := stop_correlation s
    let s2 := { r1.state with bin_width := w }
    if restart then
      let r3 := start_correlation devStatus s2
      if r3.ok then
        { state := r3.state
          events := r1.events ++ r3.events ++ [(.sigBinWidthChanged r3.state.bin_width, false)]
          ok := true }
      else
        { state := r3.state, events := r1.events ++ r3.events, ok := false }
    else
      { state := s2
        events := r1.events ++ [(.sigBinWidthChanged s2.bin_width, false)]
        ok := true }
  else
    { state := s
      events := [(.logWarning, false), (.sigBinWidthChanged s.bin_width, false)]
      ok := true }

/-- `AutocorrelationLogic.set_refresh_time(refresh_time)`: remember whether the
module was locked; if it was, call `start_correlation()` — there is NO call to
`stop_correlation` anywhere in this method; then store the new refresh time and
emit `sigCountingRefreshTimeChanged`.  If `start_correlation` raises (it always
does when the module is locked), the assignment and the emission are skipped. -/
def set_refresh_time (devStatus : Int) (t : Int) (s : AutocorrelationState) : StepResult :=
  let restart := s.moduleState = .locked
  if restart then
    let r1 := start_correlation devStatus s
    if r1.ok then
      { state := { r1.state with refresh_time := t }
        events := r1.events ++ [(.sigRefreshTimeChanged t, false)]
        ok := true }
    else
      { state := r1.state, events := r1.events, ok := false }
  else
    { state := { s with refresh_time := t }
      events := [(.sigRefreshTimeChanged t, false)]
      ok := true }

/-- The public operations of the controller, for stating invariants that every
operation preserves. -/
inductive Op where
  | start (devStatus : Int)
  | stop
  | cont
  | loopBody (rand : Nat → Int)
  | setCountLength (devStatus n : Int)
  | setBinWidth (devStatus w : Int)
  | setRefreshTime (devStatus t : Int)

/-- Dispatch one public operation. -/
def runOp : Op → AutocorrelationState → StepResult
  | .start devStatus, s => start_correlation devStatus s
  | .stop, s => stop_correlation s
  | .cont, s => continue_correlation s
  | .loopBody rand, s => correlation_loop_body rand s
  | .setCountLength devStatus n, s => set_count_length devStatus n s
  | .setBinWidth devStatus w, s => set_bin_width devStatus w s
  | .setRefreshTime devStatus t, s => set_refresh_time devStatus t s

/-- The flag invariant: whenever the module is not locked (Idle), the
`stopRequested` flag is clear. -/
def flagInv (s : AutocorrelationState) : Prop :=
  s.moduleState = .idle → s.stopRequested = false

instance (s : AutocorrelationState) : Decidable (flagInv s) := by
  unfold flagInv; infer_instance

/-- The state reached from the freshly activated module by a successful
`start_correlation`: the canonical Running state. -/
def runningState : AutocorrelationState :=
  (start_correlation 0 initialState).state

/-- A fixed randomness source for concrete evaluations of the dummy device. -/
def rand0 : Nat → Int := fun _ => 0

/-- C1, counterexample: from the canonical Running state, after
`stop_correlation`, the poll iteration that observes the stop request emits
only `devStopMeasure` and one `sigCorrelationUpdated` — it emits NO
`sigCorrelationStatusChanged False`, contradicting the claimed
`statusChanged(false)` notification. -/
theorem C1_counterexample :
    (correlation_loop_body rand0 (stop_correlation runningState).state).events =
      [(.devStopMeasure, true), (.sigDataUpdated, true)] ∧
    (Event.sigStatusChanged false, true) ∉
      (correlation_loop_body rand0 (stop_correlation runningState).state).events := by
  decide

/-- C1 (amended): after `stop()` while Running, the poll iteration that
observes the stop request stops the device, clears the flag, transitions to
Idle, and emits exactly one final `dataUpdated()` — with no `statusChanged`
notification of any kind, no sleep, and no further poll scheduled (no
`sigDataNext`). -/
theorem C1_stop_observed (s : AutocorrelationState) (rand : Nat → Int)
    (h : s.moduleState = .locked) :
    (correlation_loop_body rand (stop_correlation s).state).state.moduleState = .idle ∧
    (correlation_loop_body rand (stop_correlation s).state).state.stopRequested = false ∧
    (correlation_loop_body rand (stop_correlation s).state).events =
      [(.devStopMeasure, true), (.sigDataUpdated, true)] ∧
    (correlation_loop_body rand (stop_correlation s).state).ok = true := by
  simp [stop_correlation, correlation_loop_body, h]

/-- C1, witness: the amended statement at the canonical Running state. -/
theorem C1_witness :
    runningState.moduleState = .locked ∧
    ((correlation_loop_body rand0 (stop_correlation runningState).state).state.moduleState = .idle ∧
     (correlation_loop_body rand0 (stop_correlation runningState).state).state.stopRequested = false ∧
     (correlation_loop_body rand0 (stop_correlation runningState).state).events =
       [(.devStopMeasure, true), (.sigDataUpdated, true)] ∧
     (correlation_loop_body rand0 (stop_correlation runningState).state).ok = true) :=
  ⟨by decide, C1_stop_observed runningState rand0 (by decide)⟩

/-- C2, counterexample: from the freshly activated, never-started Idle state,
`continue_correlation` is NOT rejected: it calls `continue_measure` on the
device and locks the module. -/
theorem C2_counterexample :
    (continue_correlation initialState).events =
      [(.devContinueMeasure, false), (.sigDataNext, true)] ∧
    (continue_correlation initialState).state.moduleState = .locked := by
  decide

/-- C2 (amended): `continue()` while Idle is accepted, not rejected: the code
guards only against `continue()` while locked.  From any Idle state it calls
`continue_measure` on the device, locks the module (Running) and schedules a
poll iteration. -/
theorem C2_continue_while_idle (s : AutocorrelationState)
    (h : s.moduleState = .idle) :
    (continue_correlation s).events =
      [(.devContinueMeasure, false), (.sigDataNext, true)] ∧
    (continue_correlation s).state = { s with moduleState := .locked } ∧
    (continue_correlation s).ok = true := by
  simp [continue_correlation, h]

/-- C2, witness: the amended statement at the initial state. -/
theorem C2_witness :
    initialState.moduleState = .idle ∧
    ((continue_correlation initialState).events =
       [(.devContinueMeasure, false), (.sigDataNext, true)] ∧
     (continue_correlation initialState).state =
       { initialState with moduleState := .locked } ∧
     (continue_correlation initialState).ok = true) :=
  ⟨by decide, C2_continue_while_idle initialState (by decide)⟩

/-- C3: even when the device rejects the configuration (its `configure`
returns a negative status, e.g. `-1`), `start_correlation` from Idle still
locks the module (Running), zero-fills the trace, emits
`sigCorrelationStatusChanged True` and schedules a poll — it never emits the
claimed failure notification, because `_configure_correlation` discards the
device's return value and returns `0` unconditionally, leaving the failure
branch of `start_correlation` dead. -/
theorem C3_config_failure_ignored (s : AutocorrelationState) (devStatus : Int)
    (h : s.moduleState = .idle) :
    (start_correlation devStatus s).state.moduleState = .locked ∧
    (start_correlation devStatus s).events =
      [(.devConfigure s.bin_width s.count_length, false), (.devStartMeasure, false),
       (.sigStatusChanged true, true), (.sigDataNext, true)] ∧
    (Event.sigStatusChanged false, true) ∉ (start_correlation devStatus s).events ∧
    (start_correlation devStatus s).ok = true := by
  simp [start_correlation, configure_correlation_status, h]

/-- C3, witness: the statement at the initial state with the device rejecting
the configuration (`devStatus = -1`). -/
theorem C3_witness :
    initialState.moduleState = .idle ∧
    ((start_correlation (-1) initialState).state.moduleState = .locked ∧
     (start_correlation (-1) initialState).events =
       [(.devConfigure initialState.bin_width initialState.count_length, false),
        (.devStartMeasure, false),
        (.sigStatusChanged true, true), (.sigDataNext, true)] ∧
     (Event.sigStatusChanged false, true) ∉ (start_correlation (-1) initialState).events ∧
     (start_correlation (-1) initialState).ok = true) :=
  ⟨by decide, C3_config_failure_ignored initialState (-1) (by decide)⟩

/-- C4, counterexample: calling `start_correlation` while the module is
already Running (locked) DOES reconfigure the device — `devConfigure` appears
in the trace — contradicting the claim that no device reconfiguration
happens. -/
theorem C4_counterexample :
    runningState.moduleState = .locked ∧
    (Event.devConfigure 500 50, false) ∈ (start_correlation 0 runningState).events := by
  decide

/-- C4 (amended): `start()` while already Running is not guarded up front: the
device is reconfigured and `start_measure` is called unconditionally before
the state check; the subsequent `module_state.lock()` is then rejected by the
state machine and the exception escapes, so no `sigDataNext` is emitted (no
second poll cycle is scheduled) and the module stays locked. -/
theorem C4_start_while_running (s : AutocorrelationState) (devStatus : Int)
    (h : s.moduleState = .locked) :
    (start_correlation devStatus s).events =
      [(.devConfigure s.bin_width s.count_length, false), (.devStartMeasure, false)] ∧
    (start_correlation devStatus s).ok = false ∧
    (start_correlation devStatus s).state =
      { s with device := dummy_configure s.device s.bin_width s.count_length } := by
  simp [start_correlation, h]

/-- C4, witness: the amended statement at the canonical Running state. -/
theorem C4_witness :
    runningState.moduleState = .locked ∧
    ((start_correlation 0 runningState).events =
       [(.devConfigure runningState.bin_width runningState.count_length, false),
        (.devStartMeasure, false)] ∧
     (start_correlation 0 runningState).ok = false ∧
     (start_correlation 0 runningState).state =
       { runningState with
           device := dummy_configure runningState.device
             runningState.bin_width runningState.count_length }) :=
  ⟨by decide, C4_start_while_running runningState 0 (by decide)⟩

/-- C5, counterexample: `set_count_length(0)` from the initial state emits a
`sigCountLengthChanged` notification (carrying the unchanged value 50),
contradicting the claim that no change notification is emitted. -/
theorem C5_counterexample :
    (Event.sigCountLengthChanged 50, false) ∈ (set_count_length 0 0 initialState).events := by
  decide

/-- C5 (amended): for every `n ≤ 0`, `set_count_length(n)` leaves the run
state, the stored parameters and the Trace unchanged and logs a warning — but
it also still emits a `sigCountLengthChanged` notification carrying the
unchanged value. -/
theorem C5_nonpositive_count_length (devStatus n : Int) (s : AutocorrelationState)
    (h : n ≤ 0) :
    (set_count_length devStatus n s).state = s ∧
    (set_count_length devStatus n s).events =
      [(.logWarning, false), (.sigCountLengthChanged s.count_length, false)] ∧
    (set_count_length devStatus n s).ok = true := by
  have hn : ¬ n > 0 := by omega
  simp [set_count_length, hn]

/-- C5, witness: the amended statement at `n = -5` from the initial state. -/
theorem C5_witness :
    (-5 : Int) ≤ 0 ∧
    ((set_count_length 0 (-5) initialState).state = initialState ∧
     (set_count_length 0 (-5) initialState).events =
       [(.logWarning, false), (.sigCountLengthChanged initialState.count_length, false)] ∧
     (set_count_length 0 (-5) initialState).ok = true) :=
  ⟨by decide, C5_nonpositive_count_length 0 (-5) initialState (by decide)⟩

/-- C6: `set_count_length` with a valid value while Running does NOT perform a
synchronous stop/restart.  `stop_correlation` merely sets the `stopRequested`
flag; `start_correlation` is then invoked while the module is still locked, so
its `lock()` attempt is rejected and the exception escapes (`ok = false`): the
notification is skipped, the Trace is NOT re-zeroed, the module is left locked
with a stale pending stop request, and the very next poll iteration observes
that flag and stops the measurement instead of continuing to run. -/
theorem C6_restart_broken (devStatus n : Int) (s : AutocorrelationState)
    (rand : Nat → Int) (hrun : s.moduleState = .locked) (hn : 0 < n) :
    (set_count_length devStatus n s).ok = false ∧
    (set_count_length devStatus n s).state.moduleState = .locked ∧
    (set_count_length devStatus n s).state.stopRequested = true ∧
    (set_count_length devStatus n s).state.rawdata = s.rawdata ∧
    (set_count_length devStatus n s).state.count_length = n ∧
    (set_count_length devStatus n s).events =
      [(.devConfigure s.bin_width n, false), (.devStartMeasure, false)] ∧
    (correlation_loop_body rand (set_count_length devStatus n s).state).state.moduleState
      = .idle ∧
    (Event.devStopMeasure, true) ∈
      (correlation_loop_body rand (set_count_length devStatus n s).state).events := by
  simp [set_count_length, stop_correlation, start_correlation,
    configure_correlation_status, correlation_loop_body, hrun, hn]

/-- C6, witness: the statement at count length 100 from the canonical Running
state. -/
theorem C6_witness :
    runningState.moduleState = .locked ∧ (0 : Int) < 100 ∧
    ((set_count_length 0 100 runningState).ok = false ∧
     (set_count_length 0 100 runningState).state.moduleState = .locked ∧
     (set_count_length 0 100 runningState).state.stopRequested = true ∧
     (set_count_length 0 100 runningState).state.rawdata = runningState.rawdata ∧
     (set_count_length 0 100 runningState).state.count_length = 100 ∧
     (set_count_length 0 100 runningState).events =
       [(.devConfigure runningState.bin_width 100, false), (.devStartMeasure, false)] ∧
     (correlation_loop_body rand0 (set_count_length 0 100 runningState).state).state.moduleState
       = .idle ∧
     (Event.devStopMeasure, true) ∈
       (correlation_loop_body rand0 (set_count_length 0 100 runningState).state).events) :=
  ⟨by decide, by decide, C6_restart_broken 0 100 runningState rand0 (by decide) (by decide)⟩

/-- C7: `set_refresh_time` while Running performs no stop()/start() pair: the
source calls `start_correlation()` with no preceding stop — no `devStopMeasure`
ever appears — and since the module is still locked the `lock()` attempt is
rejected, the exception escapes, the new refresh time is never stored and no
`sigCountingRefreshTimeChanged` notification is emitted. -/
theorem C7_refresh_restart_broken (devStatus t : Int) (s : AutocorrelationState)
    (hrun : s.moduleState = .locked) :
    (set_refresh_time devStatus t s).ok = false ∧
    (set_refresh_time devStatus t s).events =
      [(.devConfigure s.bin_width s.count_length, false), (.devStartMeasure, false)] ∧
    (set_refresh_time devStatus t s).state.refresh_time = s.refresh_time ∧
    (set_refresh_time devStatus t s).state.moduleState = .locked := by
  simp [set_refresh_time, start_correlation, configure_correlation_status, hrun]

/-- C7, witness: the statement at refresh time 500 from the canonical Running
state. -/
theorem C7_witness :
    runningState.moduleState = .locked ∧
    ((set_refresh_time 0 500 runningState).ok = false ∧
     (set_refresh_time 0 500 runningState).events =
       [(.devConfigure runningState.bin_width runningState.count_length, false),
        (.devStartMeasure, false)] ∧
     (set_refresh_time 0 500 runningState).state.refresh_time = runningState.refresh_time ∧
     (set_refresh_time 0 500 runningState).state.moduleState = .locked) :=
  ⟨by decide, C7_refresh_restart_broken 0 500 runningState (by decide)⟩

/-- C8, counterexample: in a normal poll iteration from the canonical Running
state, both the blocking sleep and the `get_data_trace` device call are
performed WITH the threadlock held (their lock flag is `true`), contradicting
the claim that the lock is never held across them. -/
theorem C8_counterexample :
    (Event.sleepMs 1000, true) ∈ (correlation_loop_body rand0 runningState).events ∧
    (Event.devGetDataTrace, true) ∈ (correlation_loop_body rand0 runningState).events := by
  decide

/-- C8 (amended): the threadlock is held for the ENTIRE body of a normal poll
iteration — the blocking sleep for `refreshInterval`, the `get_data_trace`
device call, the Trace overwrite and both signal emissions all occur inside
the `with self.threadlock` block (every event of the iteration carries the
lock-held flag). -/
theorem C8_lock_across_sleep_and_io (s : AutocorrelationState) (rand : Nat → Int)
    (hrun : s.moduleState = .locked) (hstop : s.stopRequested = false) :
    (correlation_loop_body rand s).events =
      [(.sleepMs s.refresh_time, true), (.devGetDataTrace, true),
       (.sigDataUpdated, true), (.sigDataNext, true)] ∧
    ∀ e ∈ (correlation_loop_body rand s).events, e.2 = true := by
  constructor
  · simp [correlation_loop_body, hrun, hstop]
  · intro e he
    simp [correlation_loop_body, hrun, hstop] at he
    rcases he with h | h | h | h <;> simp [h]

/-- C8, witness: the amended statement at the canonical Running state. -/
theorem C8_witness :
    runningState.moduleState = .locked ∧ runningState.stopRequested = false ∧
    ((correlation_loop_body rand0 runningState).events =
       [(.sleepMs runningState.refresh_time, true), (.devGetDataTrace, true),
        (.sigDataUpdated, true), (.sigDataNext, true)] ∧
     ∀ e ∈ (correlation_loop_body rand0 runningState).events, e.2 = true) :=
  ⟨by decide, by decide, C8_lock_across_sleep_and_io runningState rand0 (by decide) (by decide)⟩

/-- C9: in the spec scenario (`countLength = 50`, `binWidth = 500`, the dummy
device), the Trace stored and published at the first `dataUpdated()` after
`start()` has length 50, not `2*50+1 = 101`: the dummy's `get_data_trace`
returns `np.random.randint(0, 100, self._count_length)` — an array of
`_count_length` elements — even though its own docstring and its
`get_count_length()` (which reports `2*50+1 = 101`) promise the
`2*countLength+1` convention. -/
theorem C9_trace_length (rand : Nat → Int) :
    (start_correlation 0 initialState).state.count_length = 50 ∧
    dummy_get_count_length (start_correlation 0 initialState).state.device = 101 ∧
    (Event.sigDataUpdated, true) ∈
      (correlation_loop_body rand (start_correlation 0 initialState).state).events ∧
    (correlation_loop_body rand (start_correlation 0 initialState).state).state.rawdata.length
      = 50 := by
  refine ⟨by decide, by decide, ?_, ?_⟩ <;>
    simp [start_correlation, initialState, configure_correlation_status,
      correlation_loop_body, dummy_configure, dummy_get_data_trace]

/-- C10: the flag invariant — whenever the module is not locked (Idle), the
`stopRequested` flag is `false` — holds in the freshly activated state and is
preserved by every public operation (start, stop, continue, the poll loop
body, and the three parameter setters), so a stale stop request never
survives into an Idle state and cannot carry over into a subsequent
`start()`. -/
theorem C10_flag_invariant :
    flagInv initialState ∧
    ∀ (op : Op) (s : AutocorrelationState), flagInv s → flagInv (runOp op s).state := by
  refine ⟨by decide, ?_⟩
  intro op s h
  cases op <;>
    cases hms : s.moduleState <;>
    simp_all [runOp, start_correlation, stop_correlation, continue_correlation,
      correlation_loop_body, set_count_length, set_bin_width, set_refresh_time,
      configure_correlation_status, flagInv] <;>
    split_ifs <;>
    simp_all

/-- C10, witness: the invariant holds initially and is preserved by a concrete
`stop_correlation` step from the initial state. -/
theorem C10_witness :
    flagInv initialState ∧ flagInv (runOp Op.stop initialState).state :=
  ⟨C10_flag_invariant.1, C10_flag_invariant.2 Op.stop initialState C10_flag_invariant.1⟩

end Autocorrelation
